import Mathlib

/-!
# Verification of the sun-sky emitter (`src/emitters/sunsky.cpp`)

A shallow embedding, over `ℝ`, of the numeric core of the `SunskyEmitter`
plugin: the truncated-Gaussian-mixture (TGMM) table builder, the sky/sun
balance estimator, the Bezier coefficient interpolator, the sky density
evaluator, the wavelength sampler, the constructor validation, and the
`parameters_changed` change-propagation logic.

Machine floats are embedded as real numbers; the drjit machine constants
`Epsilon` / `OneMinusEpsilon` (double precision) are embedded as the exact
rationals `2⁻⁵³` and `1 - 2⁻⁵³`.  External collaborators that live outside
the translated file (astronomical sun position, the bilinear dataset stage,
the radiance evaluators, the Gaussian CDF, the world transform) are kept as
abstract function parameters.
-/

open Real Filter Set

noncomputable section

namespace Sunsky

/-! ## Machine constants and small helpers -/

/-- drjit `Epsilon<double>` (`2⁻⁵³`), used by `dr::Epsilon` / `dr::OneMinusEpsilon`. -/
def eps : ℝ := 1 / 2 ^ 53

/-- drjit `OneMinusEpsilon<double>` (`1 - 2⁻⁵³`). -/
def oneMinusEps : ℝ := 1 - eps

theorem eps_pos : 0 < eps := by norm_num [eps]

theorem eps_lt_one : eps < 1 := by norm_num [eps]

theorem oneMinusEps_lt_one : oneMinusEps < 1 := by
  have := eps_pos; simp only [oneMinusEps]; linarith

theorem oneMinusEps_pos : 0 < oneMinusEps := by
  have := eps_lt_one; simp only [oneMinusEps]; linarith

/-- `dr::clip(x, lo, hi) = min(max(x, lo), hi)`. -/
def clip (x lo hi : ℝ) : ℝ := min (max x lo) hi

/-- `dr::rad_to_deg`: multiply by `180/π`. -/
def rad_to_deg (x : ℝ) : ℝ := x * (180 / Real.pi)

/-- `dr::cbrt`: real cube root, odd extension of `x ^ (1/3)` to negatives. -/
def cbrt (x : ℝ) : ℝ :=
  if x < 0 then -((-x) ^ ((1 : ℝ) / 3)) else x ^ ((1 : ℝ) / 3)

theorem cbrt_zero : cbrt 0 = 0 := by
  simp only [cbrt, lt_irrefl, if_neg (lt_irrefl (0 : ℝ))]
  exact Real.zero_rpow (by norm_num)

theorem cbrt_neg_one : cbrt (-1) = -1 := by
  simp only [cbrt, if_pos (by norm_num : (-1 : ℝ) < 0), neg_neg, Real.one_rpow]

theorem cbrt_nonneg {x : ℝ} (hx : 0 ≤ x) : 0 ≤ cbrt x := by
  simp only [cbrt, if_neg (not_lt.mpr hx)]
  exact Real.rpow_nonneg hx _

/-- Strict lower bound through `cbrt` on nonnegative arguments. -/
theorem lt_cbrt_of_cube_lt {a x : ℝ} (ha : 0 ≤ a) (h : a ^ 3 < x) : a < cbrt x := by
  have hx : 0 ≤ x := le_trans (by positivity) h.le
  have hx' : ¬x < 0 := not_lt.mpr hx
  simp only [cbrt, if_neg hx']
  have h3 : (0 : ℝ) < (1 : ℝ) / 3 := by norm_num
  have ha3 : (0 : ℝ) ≤ a ^ 3 := by positivity
  have := Real.rpow_lt_rpow ha3 h h3
  calc a = ((a ^ 3) ^ ((1 : ℝ) / 3)) := by
            rw [← Real.rpow_natCast a 3, ← Real.rpow_mul ha]
            norm_num
       _ < x ^ ((1 : ℝ) / 3) := this

/-! ## Bezier coefficient interpolation (`bezier_interp`, sunsky.cpp:707-725)

`SKY_CTRL_PTS = 6` control points.  The dataset slice `dr::take(dataset,
ctrl_pt)` is embedded as a function `ℕ → ℝ` giving one flattened output
entry per control point; `bezier_interp` below computes one output entry. -/

/-- Number of Bezier control points (`SKY_CTRL_PTS`). -/
def SKY_CTRL_PTS : ℕ := 6

/-- The binomial weights `{1, 5, 10, 10, 5, 1}` (`coefs` in `bezier_interp`). -/
def bezier_coefs : ℕ → ℝ
  | 0 => 1
  | 1 => 5
  | 2 => 10
  | 3 => 10
  | 4 => 5
  | 5 => 1
  | _ + 6 => 0

/-- The reparameterized interpolation variable:
`x = cbrt(2/π · η)` clamped above at `OneMinusEpsilon` (sunsky.cpp:710-711).
Note the source applies no lower clamp. -/
def bezier_x (eta : ℝ) : ℝ := min (cbrt (2 * Real.pi⁻¹ * eta)) oneMinusEps

/-- One loop iteration of `bezier_interp`: the state is
`(res, x_pow, x_pow_inv)` and `x_pow_inv_scale = (1 - x)⁻¹`
(sunsky.cpp:714-722). -/
def bezier_step (d : ℕ → ℝ) (x : ℝ) (st : ℝ × ℝ × ℝ) (i : ℕ) : ℝ × ℝ × ℝ :=
  (st.1 + bezier_coefs i * st.2.1 * st.2.2 * d i, st.2.1 * x, st.2.2 * (1 - x)⁻¹)

/-- The accumulation loop of `bezier_interp` run at parameter `x`:
`res = Σᵢ coefs[i]·x_pow·x_pow_inv·data[i]` with `x_pow` starting at `1`
and `x_pow_inv` starting at `(1-x)⁵` (sunsky.cpp:714-722). -/
def bezier_loop (d : ℕ → ℝ) (x : ℝ) : ℝ :=
  ((List.range SKY_CTRL_PTS).foldl (bezier_step d x)
    (0, 1, (1 - x) ^ (SKY_CTRL_PTS - 1))).1

/-- `bezier_interp` (sunsky.cpp:707-725): Bezier blend of the six
control-point slices `d 0 .. d 5` at elevation parameter `eta`. -/
def bezier_interp (d : ℕ → ℝ) (eta : ℝ) : ℝ := bezier_loop d (bezier_x eta)

/-- The closed-form Bernstein sum
`Σ_{i=0}^{5} coef[i]·x^i·(1-x)^(5-i)·d[i]`. -/
def bernstein_sum (d : ℕ → ℝ) (x : ℝ) : ℝ :=
  ∑ i ∈ Finset.range SKY_CTRL_PTS,
    bezier_coefs i * x ^ i * (1 - x) ^ (SKY_CTRL_PTS - 1 - i) * d i

/-- For `x ≠ 1` the incremental accumulation of `bezier_interp` agrees with
the closed-form Bernstein sum (the division `(1-x)⁻¹` never blows up). -/
theorem bezier_loop_eq_bernstein (d : ℕ → ℝ) {x : ℝ} (hx : x ≠ 1) :
    bezier_loop d x = bernstein_sum d x := by
  have h1 : (1 : ℝ) - x ≠ 0 := sub_ne_zero.mpr (Ne.symm hx)
  simp only [bezier_loop, bernstein_sum, SKY_CTRL_PTS, bezier_step,
    List.range_succ, List.range_zero, List.nil_append, List.cons_append,
    List.foldl_cons, List.foldl_nil, Finset.sum_range_succ,
    Finset.sum_range_zero, bezier_coefs]
  field_simp
  ring

theorem bezier_x_lt_one (eta : ℝ) : bezier_x eta < 1 :=
  lt_of_le_of_lt (min_le_right _ _) oneMinusEps_lt_one

theorem bezier_x_ne_one (eta : ℝ) : bezier_x eta ≠ 1 :=
  ne_of_lt (bezier_x_lt_one eta)

theorem bezier_x_zero : bezier_x 0 = 0 := by
  simp only [bezier_x, mul_zero, cbrt_zero]
  exact min_eq_left oneMinusEps_pos.le

theorem bezier_interp_at_zero (d : ℕ → ℝ) : bezier_interp d 0 = d 0 := by
  rw [bezier_interp, bezier_loop_eq_bernstein d (bezier_x_ne_one 0), bezier_x_zero]
  simp [bernstein_sum, SKY_CTRL_PTS, Finset.sum_range_succ, bezier_coefs]

/-- Beyond the threshold `(π/2)·(1-ε)³` the clamp pins `x` at
`OneMinusEpsilon`. -/
theorem bezier_x_eq_of_lt {eta : ℝ} (h : Real.pi / 2 * oneMinusEps ^ 3 < eta) :
    bezier_x eta = oneMinusEps := by
  have hpi : (0 : ℝ) < Real.pi := Real.pi_pos
  have h2 : (0 : ℝ) < 2 * Real.pi⁻¹ := by positivity
  have hc : oneMinusEps ^ 3 < 2 * Real.pi⁻¹ * eta := by
    have := mul_lt_mul_of_pos_left h h2
    calc oneMinusEps ^ 3 = 2 * Real.pi⁻¹ * (Real.pi / 2 * oneMinusEps ^ 3) := by
          field_simp; ring
      _ < 2 * Real.pi⁻¹ * eta := this
  have := lt_cbrt_of_cube_lt oneMinusEps_pos.le hc
  exact min_eq_right this.le

/-- Near `η = π/2` the interpolator is constant, equal to the Bernstein sum
evaluated at `x = 1 - ε`; hence it converges to that value. -/
theorem bezier_interp_tendsto (d : ℕ → ℝ) :
    Filter.Tendsto (fun eta => bezier_interp d eta) (nhds (Real.pi / 2))
      (nhds (bernstein_sum d oneMinusEps)) := by
  have hT : Real.pi / 2 * oneMinusEps ^ 3 < Real.pi / 2 := by
    have hlt : oneMinusEps ^ 3 < 1 :=
      pow_lt_one₀ oneMinusEps_pos.le oneMinusEps_lt_one (by norm_num)
    have hpi : (0 : ℝ) < Real.pi / 2 := by positivity
    calc Real.pi / 2 * oneMinusEps ^ 3 < Real.pi / 2 * 1 :=
          mul_lt_mul_of_pos_left hlt hpi
      _ = Real.pi / 2 := mul_one _
  have hmem : Set.Ioi (Real.pi / 2 * oneMinusEps ^ 3) ∈ nhds (Real.pi / 2) :=
    isOpen_Ioi.mem_nhds hT
  refine Filter.Tendsto.congr' ?_ tendsto_const_nhds
  filter_upwards [hmem] with eta heta
  rw [bezier_interp, bezier_x_eq_of_lt heta,
    bezier_loop_eq_bernstein d (ne_of_lt oneMinusEps_lt_one)]

/-- Concrete dataset: control point 0 carries `1`, the others `0`. -/
def deltaData : ℕ → ℝ := fun n => if n = 0 then 1 else 0

/-- **C4** (amended): for every `η ≥ 0`, `bezier_interp` computes
`x = clamp(cbrt((2/π)·η), 0, 1-ε)` and returns the Bernstein sum
`Σ_{i=0}^{5} coef[i]·x^i·(1-x)^(5-i)·dataset[i]` with
`coef = {1,5,10,10,5,1}`.  (For `η < 0` the source applies no lower clamp;
see the counterexample.) -/
theorem bezier_interp_eq_bernstein_clip (d : ℕ → ℝ) (eta : ℝ) (h : 0 ≤ eta) :
    bezier_interp d eta =
      ∑ i ∈ Finset.range SKY_CTRL_PTS,
        bezier_coefs i * clip (cbrt (2 * Real.pi⁻¹ * eta)) 0 oneMinusEps ^ i *
          (1 - clip (cbrt (2 * Real.pi⁻¹ * eta)) 0 oneMinusEps) ^ (SKY_CTRL_PTS - 1 - i) *
          d i := by
  have harg : (0 : ℝ) ≤ 2 * Real.pi⁻¹ * eta := by
    have := Real.pi_pos
    positivity
  have hclip : clip (cbrt (2 * Real.pi⁻¹ * eta)) 0 oneMinusEps = bezier_x eta := by
    simp only [clip, bezier_x, max_eq_left (cbrt_nonneg harg)]
  rw [hclip, bezier_interp, bezier_loop_eq_bernstein d (bezier_x_ne_one eta)]
  rfl

/-- Witness for the amended C4 claim at `η = 0`, dataset `deltaData`. -/
theorem bezier_interp_eq_bernstein_clip_witness :
    (0 : ℝ) ≤ 0 ∧
      bezier_interp deltaData 0 =
        ∑ i ∈ Finset.range SKY_CTRL_PTS,
          bezier_coefs i * clip (cbrt (2 * Real.pi⁻¹ * 0)) 0 oneMinusEps ^ i *
            (1 - clip (cbrt (2 * Real.pi⁻¹ * 0)) 0 oneMinusEps) ^ (SKY_CTRL_PTS - 1 - i) *
            deltaData i :=
  ⟨le_refl 0, bezier_interp_eq_bernstein_clip deltaData 0 (le_refl 0)⟩

/-- **C4, counterexample**: at `η = -π/2` (sun fully below the horizon) the
code's `x = min(cbrt(-1), 1-ε) = -1` is not clamped below at `0`: the
returned value is `32·d[0]`, not the claimed clamped Bernstein sum `d[0]`. -/
theorem bezier_interp_clip_counterexample :
    bezier_interp deltaData (-(Real.pi / 2)) ≠
      ∑ i ∈ Finset.range SKY_CTRL_PTS,
        bezier_coefs i *
          clip (cbrt (2 * Real.pi⁻¹ * -(Real.pi / 2))) 0 oneMinusEps ^ i *
          (1 - clip (cbrt (2 * Real.pi⁻¹ * -(Real.pi / 2))) 0 oneMinusEps) ^
            (SKY_CTRL_PTS - 1 - i) *
          deltaData i := by
  have hpi : Real.pi ≠ 0 := Real.pi_ne_zero
  have harg : 2 * Real.pi⁻¹ * -(Real.pi / 2) = -1 := by field_simp; ring
  have hx : bezier_x (-(Real.pi / 2)) = -1 := by
    rw [bezier_x, harg, cbrt_neg_one]
    exact min_eq_left (by linarith [oneMinusEps_pos])
  have hlhs : bezier_interp deltaData (-(Real.pi / 2)) = 32 := by
    rw [bezier_interp, bezier_loop_eq_bernstein deltaData (bezier_x_ne_one _), hx]
    norm_num [bernstein_sum, SKY_CTRL_PTS, Finset.sum_range_succ, bezier_coefs,
      deltaData]
  have hclip : clip (cbrt (2 * Real.pi⁻¹ * -(Real.pi / 2))) 0 oneMinusEps = 0 := by
    rw [harg, cbrt_neg_one, clip, max_eq_right (by norm_num : (-1 : ℝ) ≤ 0)]
    exact min_eq_left oneMinusEps_pos.le
  have hrhs :
      (∑ i ∈ Finset.range SKY_CTRL_PTS,
        bezier_coefs i *
          clip (cbrt (2 * Real.pi⁻¹ * -(Real.pi / 2))) 0 oneMinusEps ^ i *
          (1 - clip (cbrt (2 * Real.pi⁻¹ * -(Real.pi / 2))) 0 oneMinusEps) ^
            (SKY_CTRL_PTS - 1 - i) *
          deltaData i) = 1 := by
    rw [hclip]
    norm_num [SKY_CTRL_PTS, Finset.sum_range_succ, bezier_coefs, deltaData]
  rw [hlhs, hrhs]; norm_num

/-- **C5** (amended): `bezier_interp` at `η = 0` returns exactly control
point 0's data; as `η → π/2` the result converges to the Bernstein blend
evaluated at `x = 1 - ε` (within `O(ε)` of control point 5's data, but not
exactly it, because of the `OneMinusEpsilon` clamp). -/
theorem bezier_interp_boundary (d : ℕ → ℝ) :
    bezier_interp d 0 = d 0 ∧
      Filter.Tendsto (fun eta => bezier_interp d eta) (nhds (Real.pi / 2))
        (nhds (bernstein_sum d oneMinusEps)) :=
  ⟨bezier_interp_at_zero d, bezier_interp_tendsto d⟩

/-- **C5, counterexample**: with data concentrated on control point 0, the
result does not converge to control point 5's data as `η → π/2` from below:
the clamp freezes the blend at `x = 1 - ε`, whose value is `ε⁵ ≠ 0`. -/
theorem bezier_interp_boundary_counterexample :
    ¬ Filter.Tendsto (fun eta => bezier_interp deltaData eta)
        (nhdsWithin (Real.pi / 2) (Set.Iio (Real.pi / 2))) (nhds (deltaData 5)) := by
  intro hcl
  haveI : (nhdsWithin (Real.pi / 2) (Set.Iio (Real.pi / 2))).NeBot :=
    nhdsWithin_Iio_self_neBot' ⟨0, by simp [Real.pi_pos, div_pos]⟩
  have h2 : Filter.Tendsto (fun eta => bezier_interp deltaData eta)
      (nhdsWithin (Real.pi / 2) (Set.Iio (Real.pi / 2)))
      (nhds (bernstein_sum deltaData oneMinusEps)) :=
    (bezier_interp_tendsto deltaData).mono_left nhdsWithin_le_nhds
  have heq := tendsto_nhds_unique hcl h2
  have hval : bernstein_sum deltaData oneMinusEps = eps ^ 5 := by
    simp only [bernstein_sum, SKY_CTRL_PTS, Finset.sum_range_succ,
      Finset.sum_range_zero, bezier_coefs, deltaData, oneMinusEps]
    norm_num
  rw [hval] at heq
  simp only [deltaData] at heq
  norm_num [eps] at heq

/-! ## TGMM mixture builder (`build_tgmm_distribution`, sunsky.cpp:501-566)

The TGMM dataset (loaded from `tgmm_tables.bin`) is a flat buffer indexed by
turbidity level (integers 2..10, `TURBITDITY_LVLS - 1 = 9` blocks), elevation
control point (every 3° starting at 2°, `ELEVATION_CTRL_PTS = 30` blocks) and
`TGMM_COMPONENTS = 5` Gaussians of `TGMM_GAUSSIAN_PARAMS = 5` parameters each
`{mu_phi, mu_theta, sigma_phi, sigma_theta, weight}`.  The buffer is embedded
as a function `ℕ → ℝ`. -/

/-- `TURBITDITY_LVLS` (sic): tabulated turbidity levels + 1 (levels 2..10). -/
def TURBITDITY_LVLS : ℕ := 10

/-- `ELEVATION_CTRL_PTS`: elevation control points, every 3° from 2°. -/
def ELEVATION_CTRL_PTS : ℕ := 30

/-- `TGMM_COMPONENTS`: Gaussians per tabulated mixture. -/
def TGMM_COMPONENTS : ℕ := 5

/-- `TGMM_GAUSSIAN_PARAMS`: parameters per Gaussian. -/
def TGMM_GAUSSIAN_PARAMS : ℕ := 5

/-- `m_tgmm_datasets.size()`: total number of scalars in the TGMM buffer. -/
def tgmm_dataset_size : ℕ :=
  (TURBITDITY_LVLS - 1) * ELEVATION_CTRL_PTS * TGMM_COMPONENTS * TGMM_GAUSSIAN_PARAMS

/-- `t_block_size = m_tgmm_datasets.size() / (TURBITDITY_LVLS - 1)` (sunsky.cpp:520). -/
def t_block_size : ℕ := tgmm_dataset_size / (TURBITDITY_LVLS - 1)

/-- `result_size = t_block_size / ELEVATION_CTRL_PTS` (sunsky.cpp:521). -/
def result_size : ℕ := t_block_size / ELEVATION_CTRL_PTS

/-- Fractional elevation grid coordinate
`clip((eta_deg - 2) / 3, 0, ELEVATION_CTRL_PTS - 1)` with `eta` converted
from radians to degrees first (sunsky.cpp:507-508). -/
def eta_idx_f (eta : ℝ) : ℝ :=
  clip ((rad_to_deg eta - 2) / 3) 0 ((ELEVATION_CTRL_PTS : ℝ) - 1)

/-- Fractional turbidity grid coordinate
`clip(turbidity - 2, 0, (TURBITDITY_LVLS - 1) - 1)` (sunsky.cpp:509). -/
def t_idx_f (turbidity : ℝ) : ℝ :=
  clip (turbidity - 2) 0 (((TURBITDITY_LVLS : ℝ) - 1) - 1)

/-- `eta_idx_low = floor2int(eta_idx_f)` (sunsky.cpp:511). -/
def eta_idx_low (eta : ℝ) : ℕ := ⌊eta_idx_f eta⌋₊

/-- `t_idx_low = floor2int(t_idx_f)` (sunsky.cpp:512). -/
def t_idx_low (turbidity : ℝ) : ℕ := ⌊t_idx_f turbidity⌋₊

/-- `eta_idx_high = min(eta_idx_low + 1, ELEVATION_CTRL_PTS - 1)` (sunsky.cpp:514). -/
def eta_idx_high (eta : ℝ) : ℕ := min (eta_idx_low eta + 1) (ELEVATION_CTRL_PTS - 1)

/-- `t_idx_high = min(t_idx_low + 1, (TURBITDITY_LVLS - 1) - 1)` (sunsky.cpp:515). -/
def t_idx_high (turbidity : ℝ) : ℕ := min (t_idx_low turbidity + 1) (TURBITDITY_LVLS - 1 - 1)

/-- `eta_rem = eta_idx_f - eta_idx_low` (sunsky.cpp:517). -/
def eta_rem (eta : ℝ) : ℝ := eta_idx_f eta - (eta_idx_low eta : ℝ)

/-- `t_rem = t_idx_f - t_idx_low` (sunsky.cpp:518). -/
def t_rem (turbidity : ℝ) : ℝ := t_idx_f turbidity - (t_idx_low turbidity : ℝ)

/-- Start offset of the mixture block at grid corner `(t, e)`. -/
def corner_base (t e : ℕ) : ℕ := t * t_block_size + e * result_size

/-- The four gather base offsets `indices[0..3]` (sunsky.cpp:523-528). -/
def tgmm_corner_index (turbidity eta : ℝ) : ℕ → ℕ
  | 0 => corner_base (t_idx_low turbidity) (eta_idx_low eta)
  | 1 => corner_base (t_idx_low turbidity) (eta_idx_high eta)
  | 2 => corner_base (t_idx_high turbidity) (eta_idx_low eta)
  | 3 => corner_base (t_idx_high turbidity) (eta_idx_high eta)
  | _ + 4 => 0

/-- The four bilinear weights `lerp_factors[0..3]` (sunsky.cpp:530-535). -/
def lerp_factors (turbidity eta : ℝ) : ℕ → ℝ
  | 0 => (1 - t_rem turbidity) * (1 - eta_rem eta)
  | 1 => (1 - t_rem turbidity) * eta_rem eta
  | 2 => t_rem turbidity * (1 - eta_rem eta)
  | 3 => t_rem turbidity * eta_rem eta
  | _ + 4 => 0

/-- The combined mixture buffer `distrib_params` (sunsky.cpp:538-553): entry
`k` belongs to corner `k / result_size` at block-local offset
`k % result_size`; weight slots (`p ≡ TGMM_GAUSSIAN_PARAMS - 1
(mod TGMM_GAUSSIAN_PARAMS)`) are rescaled by the corner's bilinear factor. -/
def tgmm_distrib_params (data : ℕ → ℝ) (turbidity eta : ℝ) (k : ℕ) : ℝ :=
  let m := k / result_size
  let p := k % result_size
  if p % TGMM_GAUSSIAN_PARAMS = TGMM_GAUSSIAN_PARAMS - 1 then
    data (tgmm_corner_index turbidity eta m + p) * lerp_factors turbidity eta m
  else
    data (tgmm_corner_index turbidity eta m + p)

/-- The extracted component weights `mis_weights` (sunsky.cpp:556-560):
entry `k` is `distrib_params[TGMM_GAUSSIAN_PARAMS·k + (TGMM_GAUSSIAN_PARAMS-1)]`. -/
def tgmm_mis_weights (data : ℕ → ℝ) (turbidity eta : ℝ) (k : ℕ) : ℝ :=
  tgmm_distrib_params data turbidity eta
    (TGMM_GAUSSIAN_PARAMS * k + (TGMM_GAUSSIAN_PARAMS - 1))

/-- `build_tgmm_distribution` (sunsky.cpp:501-566): returns the combined
mixture table and the weight vector handed to `DiscreteDistribution`. -/
def build_tgmm_distribution (data : ℕ → ℝ) (turbidity eta : ℝ) :
    (ℕ → ℝ) × (ℕ → ℝ) :=
  (tgmm_distrib_params data turbidity eta, tgmm_mis_weights data turbidity eta)

theorem t_idx_low_le (turbidity : ℝ) : t_idx_low turbidity ≤ TURBITDITY_LVLS - 2 := by
  have h : t_idx_f turbidity ≤ ((8 : ℕ) : ℝ) := by
    simp only [t_idx_f, clip, TURBITDITY_LVLS]
    push_cast
    exact le_trans (min_le_right _ _) (by norm_num)
  simpa [TURBITDITY_LVLS] using le_trans (Nat.floor_le_floor h) (le_of_eq (Nat.floor_natCast 8))

theorem t_idx_high_le (turbidity : ℝ) : t_idx_high turbidity ≤ TURBITDITY_LVLS - 2 := by
  simp only [t_idx_high, TURBITDITY_LVLS]
  exact min_le_right _ _

theorem eta_idx_low_le (eta : ℝ) : eta_idx_low eta ≤ ELEVATION_CTRL_PTS - 1 := by
  have h : eta_idx_f eta ≤ ((29 : ℕ) : ℝ) := by
    simp only [eta_idx_f, clip, ELEVATION_CTRL_PTS]
    push_cast
    exact le_trans (min_le_right _ _) (by norm_num)
  simpa [ELEVATION_CTRL_PTS] using
    le_trans (Nat.floor_le_floor h) (le_of_eq (Nat.floor_natCast 29))

theorem eta_idx_high_le (eta : ℝ) : eta_idx_high eta ≤ ELEVATION_CTRL_PTS - 1 := by
  simp only [eta_idx_high, ELEVATION_CTRL_PTS]
  exact min_le_right _ _

theorem corner_base_add_lt {t e p : ℕ} (ht : t ≤ TURBITDITY_LVLS - 2)
    (he : e ≤ ELEVATION_CTRL_PTS - 1) (hp : p < result_size) :
    corner_base t e + p < tgmm_dataset_size := by
  simp only [corner_base, t_block_size, result_size, tgmm_dataset_size,
    TURBITDITY_LVLS, ELEVATION_CTRL_PTS, TGMM_COMPONENTS, TGMM_GAUSSIAN_PARAMS] at *
  omega

/-- **C10**: for every turbidity and elevation input (also outside the
tabulated ranges), the corner indices of `build_tgmm_distribution` are
clamped — turbidity index at most `TURBITDITY_LVLS - 2`, elevation index at
most `ELEVATION_CTRL_PTS - 1` — hence every gather from the TGMM dataset
buffer reads within its bounds. -/
theorem tgmm_indices_in_bounds (turbidity eta : ℝ) :
    t_idx_low turbidity ≤ TURBITDITY_LVLS - 2 ∧
    t_idx_high turbidity ≤ TURBITDITY_LVLS - 2 ∧
    eta_idx_low eta ≤ ELEVATION_CTRL_PTS - 1 ∧
    eta_idx_high eta ≤ ELEVATION_CTRL_PTS - 1 ∧
    ∀ m, m < 4 → ∀ p, p < result_size →
      tgmm_corner_index turbidity eta m + p < tgmm_dataset_size := by
  refine ⟨t_idx_low_le turbidity, t_idx_high_le turbidity, eta_idx_low_le eta,
    eta_idx_high_le eta, ?_⟩
  intro m hm p hp
  interval_cases m
  · exact corner_base_add_lt (t_idx_low_le turbidity) (eta_idx_low_le eta) hp
  · exact corner_base_add_lt (t_idx_low_le turbidity) (eta_idx_high_le eta) hp
  · exact corner_base_add_lt (t_idx_high_le turbidity) (eta_idx_low_le eta) hp
  · exact corner_base_add_lt (t_idx_high_le turbidity) (eta_idx_high_le eta) hp

/-- Witness for C10: concrete corner gather `(m, p) = (3, 24)` at turbidity 3,
`η = 0` stays inside the buffer. -/
theorem tgmm_indices_in_bounds_witness :
    3 < 4 ∧ 24 < result_size ∧
      tgmm_corner_index 3 0 3 + 24 < tgmm_dataset_size :=
  ⟨by norm_num,
   by norm_num [result_size, t_block_size, tgmm_dataset_size, TURBITDITY_LVLS,
     ELEVATION_CTRL_PTS, TGMM_COMPONENTS, TGMM_GAUSSIAN_PARAMS],
   (tgmm_indices_in_bounds 3 0).2.2.2.2 3 (by norm_num) 24
     (by norm_num [result_size, t_block_size, tgmm_dataset_size, TURBITDITY_LVLS,
       ELEVATION_CTRL_PTS, TGMM_COMPONENTS, TGMM_GAUSSIAN_PARAMS])⟩

/-- **C1**: if every tabulated mixture block's component weights sum to 1,
then the component weights of the combined table produced by
`build_tgmm_distribution` sum to 1, for every turbidity and elevation: the
four bilinear corner factors sum to 1 and each corner's weights are scaled
by exactly its factor. -/
theorem tgmm_combined_weights_sum_one (data : ℕ → ℝ) (turbidity eta : ℝ)
    (hw : ∀ t e, t ≤ TURBITDITY_LVLS - 2 → e ≤ ELEVATION_CTRL_PTS - 1 →
      ∑ j ∈ Finset.range TGMM_COMPONENTS,
        data (corner_base t e +
          (TGMM_GAUSSIAN_PARAMS * j + (TGMM_GAUSSIAN_PARAMS - 1))) = 1) :
    ∑ k ∈ Finset.range (4 * TGMM_COMPONENTS),
      (build_tgmm_distribution data turbidity eta).2 k = 1 := by
  have h00 := hw _ _ (t_idx_low_le turbidity) (eta_idx_low_le eta)
  have h01 := hw _ _ (t_idx_low_le turbidity) (eta_idx_high_le eta)
  have h10 := hw _ _ (t_idx_high_le turbidity) (eta_idx_low_le eta)
  have h11 := hw _ _ (t_idx_high_le turbidity) (eta_idx_high_le eta)
  norm_num [TGMM_COMPONENTS, TGMM_GAUSSIAN_PARAMS, Finset.sum_range_succ]
    at h00 h01 h10 h11
  norm_num [build_tgmm_distribution, tgmm_mis_weights, tgmm_distrib_params,
    tgmm_corner_index, lerp_factors, TGMM_COMPONENTS, TGMM_GAUSSIAN_PARAMS,
    result_size, t_block_size, tgmm_dataset_size, TURBITDITY_LVLS,
    ELEVATION_CTRL_PTS, Finset.sum_range_succ]
  linear_combination ((1 - t_rem turbidity) * (1 - eta_rem eta)) * h00 +
    ((1 - t_rem turbidity) * eta_rem eta) * h01 +
    (t_rem turbidity * (1 - eta_rem eta)) * h10 +
    (t_rem turbidity * eta_rem eta) * h11

/-- Witness for C1: the uniform dataset with all weights `1/5` at turbidity 3,
`η = 0`. -/
theorem tgmm_combined_weights_sum_one_witness :
    (∀ t e, t ≤ TURBITDITY_LVLS - 2 → e ≤ ELEVATION_CTRL_PTS - 1 →
      ∑ j ∈ Finset.range TGMM_COMPONENTS,
        (fun _ => (1 : ℝ) / 5) (corner_base t e +
          (TGMM_GAUSSIAN_PARAMS * j + (TGMM_GAUSSIAN_PARAMS - 1))) = 1) ∧
    ∑ k ∈ Finset.range (4 * TGMM_COMPONENTS),
      (build_tgmm_distribution (fun _ => (1 : ℝ) / 5) 3 0).2 k = 1 :=
  ⟨fun t e _ _ => by
      norm_num [TGMM_COMPONENTS, Finset.sum_const, Finset.card_range],
   tgmm_combined_weights_sum_one (fun _ => (1 : ℝ) / 5) 3 0 (fun t e _ _ => by
      norm_num [TGMM_COMPONENTS, Finset.sum_const, Finset.card_range])⟩

/-! ## Sky/sun balance weight (`estimate_sky_sun_ratio`, sunsky.cpp:575-701)

The Gauss-Legendre quadrature integrates the external radiance evaluators
`eval_sky` / `eval_sun` (external collaborators, §6 of the spec); their
integrated, luminance-weighted results are abstracted here as the
nonnegative inputs `skyI` and `sunI` (`sunI` absorbs the area ratio and the
RGB conversion constant).  The code then forms
`sky_lum = m_sky_scale * skyI`, `sun_lum = m_sun_scale * sunI`,
`res = sky_lum / (sky_lum + sun_lum)` and maps a NaN `res` to 0
(sunsky.cpp:667-680).  In IEEE arithmetic on nonnegative finite inputs the
ratio is NaN exactly for the `0/0` case, embedded as the guard below.  The
scalar fallback (sunsky.cpp:584-587) is the special case `skyI = sunI = 1`. -/

/-- The balance-weight combination of `estimate_sky_sun_ratio` with the
quadrature results abstracted: `sky_lum/(sky_lum+sun_lum)` with the NaN
(`0/0`) result mapped to 0. -/
def estimate_sky_sun_ratio (sky_scale sun_scale skyI sunI : ℝ) : ℝ :=
  let sky_lum := sky_scale * skyI
  let sun_lum := sun_scale * sunI
  if sky_lum = 0 ∧ sky_lum + sun_lum = 0 then 0
  else sky_lum / (sky_lum + sun_lum)

/-- **C2**: the balance weight equals `sky_lum/(sky_lum+sun_lum)`; with sky
scale 0 it is 0, with sun scale 0 (and nonzero sky luminance) it is 1, and
with both scales 0 the NaN ratio is mapped to 0. -/
theorem estimate_sky_sun_ratio_balance (sky_scale sun_scale skyI sunI : ℝ)
    (hss : 0 < sky_scale) (hsu : 0 < sun_scale) (hI : 0 < skyI) (hJ : 0 ≤ sunI) :
    estimate_sky_sun_ratio sky_scale sun_scale skyI sunI =
        sky_scale * skyI / (sky_scale * skyI + sun_scale * sunI) ∧
      estimate_sky_sun_ratio 0 sun_scale skyI sunI = 0 ∧
      estimate_sky_sun_ratio sky_scale 0 skyI sunI = 1 ∧
      estimate_sky_sun_ratio 0 0 skyI sunI = 0 := by
  have hsky : 0 < sky_scale * skyI := mul_pos hss hI
  refine ⟨?_, ?_, ?_, ?_⟩
  · simp only [estimate_sky_sun_ratio]
    rw [if_neg (fun h => absurd h.1 (ne_of_gt hsky))]
  · by_cases h : sun_scale * sunI = 0 <;>
      simp [estimate_sky_sun_ratio, h]
  · simp only [estimate_sky_sun_ratio]
    rw [if_neg (fun h => absurd h.1 (ne_of_gt hsky)), zero_mul, add_zero]
    exact div_self (ne_of_gt hsky)
  · simp [estimate_sky_sun_ratio]

/-- Witness for C2 at scales `(1, 1)` and integrated luminances `(1, 1)`. -/
theorem estimate_sky_sun_ratio_balance_witness :
    ((0 : ℝ) < 1 ∧ (0 : ℝ) < 1 ∧ (0 : ℝ) < 1 ∧ (0 : ℝ) ≤ 1) ∧
      (estimate_sky_sun_ratio 1 1 1 1 = 1 * 1 / (1 * 1 + 1 * 1) ∧
        estimate_sky_sun_ratio 0 1 1 1 = 0 ∧
        estimate_sky_sun_ratio 1 0 1 1 = 1 ∧
        estimate_sky_sun_ratio 0 0 1 1 = 0) :=
  ⟨⟨one_pos, one_pos, one_pos, zero_le_one⟩,
   estimate_sky_sun_ratio_balance 1 1 1 1 one_pos one_pos one_pos zero_le_one⟩

/-! ## Wavelength sampling (`sample_wlgth`, sunsky.cpp:466-482)

`Wavelength` carries 4 spectral samples.  The stored continuous wavelength
distribution is abstracted as a function from shifted uniform samples to a
`(wavelengths, pdf)` pair (`ContinuousDistribution::sample_pdf`). -/

/-- The rendering variant (`Spectrum` template parameter). -/
inductive RenderMode
  | spectral
  | rgb
  | mono

/-- `is_spectral_v<Spectrum>`. -/
def is_spectral : RenderMode → Bool
  | RenderMode.spectral => true
  | _ => false

/-- A 4-sample wavelength packet. -/
abbrev Wavelength : Type := Fin 4 → ℝ

/-- `math::sample_shifted<Wavelength>` (external helper): per-lane shifted
uniform samples, wrapped back into `[0, 1)`. -/
def sample_shifted (s : ℝ) : Wavelength := fun i =>
  let v := s + (i : ℝ) / 4
  if v > 1 then v - 1 else v

/-- `sample_wlgth` (sunsky.cpp:466-482): in spectral mode, draw wavelengths
and return them with the reciprocal density; otherwise raise the
"not implemented" error. -/
def sample_wlgth (mode : RenderMode)
    (spectral_distr : Wavelength → Wavelength × Wavelength) (sample : ℝ) :
    Except String (Wavelength × Wavelength) :=
  match mode with
  | RenderMode.spectral =>
      let wp := spectral_distr (sample_shifted sample)
      Except.ok (wp.1, fun i => (wp.2 i)⁻¹)
  | _ => Except.error "sample_wavelengths"

/-- **C8**: `sample_wlgth` raises the "not implemented" error iff the
rendering mode is non-spectral; in spectral mode it returns the
`(wavelength, inverse-density)` pair drawn from the stored wavelength
distribution. -/
theorem sample_wlgth_spec (mode : RenderMode)
    (spectral_distr : Wavelength → Wavelength × Wavelength) (sample : ℝ) :
    ((∃ e, sample_wlgth mode spectral_distr sample = Except.error e) ↔
        is_spectral mode = false) ∧
      (is_spectral mode = true →
        sample_wlgth mode spectral_distr sample =
          Except.ok ((spectral_distr (sample_shifted sample)).1,
            fun i => ((spectral_distr (sample_shifted sample)).2 i)⁻¹)) := by
  cases mode <;> simp [sample_wlgth, is_spectral]

/-- A concrete wavelength distribution with unit density, for the witness. -/
def unitWavDistr : Wavelength → Wavelength × Wavelength := fun w => (w, fun _ => 1)

/-- Witness for C8 in spectral mode with a concrete distribution. -/
theorem sample_wlgth_spec_witness :
    is_spectral RenderMode.spectral = true ∧
      sample_wlgth RenderMode.spectral unitWavDistr 0 =
        Except.ok ((unitWavDistr (sample_shifted 0)).1,
          fun i => ((unitWavDistr (sample_shifted 0)).2 i)⁻¹) :=
  ⟨rfl, (sample_wlgth_spec RenderMode.spectral unitWavDistr 0).2 rfl⟩

/-! ## Sky density evaluation (`sky_pdf`, sunsky.cpp:417-464)

Query directions are local unit vectors `(x, y, z)`; `Frame3f::cos_theta`
is the `z` component and `Frame3f::sin_theta` is `safe_sqrt(1 - z²)`.
`dir_to_sph` (external utility) yields `(θ, φ) = (arccos z, atan2(y, x))`,
which the code flips to `(φ, θ)`.  The per-axis Gaussian CDF
(`Base::gaussian_cdf`, defined outside the translated file) is kept
abstract as a function `gcdf : mu → sigma → x → ℝ`. -/

/-- Two-argument arctangent (`atan2(y, x)`), modelled from the spec via the
complex argument. -/
def atan2 (y x : ℝ) : ℝ := Complex.arg ⟨x, y⟩

/-- `warp::square_to_std_normal_pdf` (external helper): the standard 2D
normal density `exp(-(p₁² + p₂²)/2) / (2π)`. -/
def square_to_std_normal_pdf (p : ℝ × ℝ) : ℝ :=
  (2 * Real.pi)⁻¹ * Real.exp (-(p.1 ^ 2 + p.2 ^ 2) / 2)

/-- One summand of the mixture loop (sunsky.cpp:442-459): the Gaussian with
parameter block starting at `base` in the combined table, normalized by its
truncated volume. -/
def tgmm_gaussian_term (gcdf : ℝ → ℝ → ℝ → ℝ) (tables : ℕ → ℝ)
    (angles : ℝ × ℝ) (base : ℕ) : ℝ :=
  let mu : ℝ × ℝ := (tables base, tables (base + 1))
  let sigma : ℝ × ℝ := (tables (base + 2), tables (base + 3))
  let volume := (gcdf mu.1 sigma.1 (2 * Real.pi) - gcdf mu.1 sigma.1 0) *
    (gcdf mu.2 sigma.2 (Real.pi / 2) - gcdf mu.2 sigma.2 0) *
    (sigma.1 * sigma.2)
  tables (base + 4) *
    square_to_std_normal_pdf
      ((angles.1 - mu.1) / sigma.1, (angles.2 - mu.2) / sigma.2) / volume

/-- The mixture sum of `sky_pdf` (sunsky.cpp:441-460): sum over the
`4 * TGMM_COMPONENTS` Gaussians of the combined table. -/
def tgmm_mixture_pdf (gcdf : ℝ → ℝ → ℝ → ℝ) (tables : ℕ → ℝ)
    (angles : ℝ × ℝ) : ℝ :=
  ∑ g ∈ Finset.range (4 * TGMM_COMPONENTS),
    tgmm_gaussian_term gcdf tables angles (TGMM_GAUSSIAN_PARAMS * g)

/-- Azimuth wrap of `sky_pdf` (sunsky.cpp:427-428): add `2π` if negative,
then subtract `2π` if above `2π`. -/
def wrap_azimuth (x : ℝ) : ℝ :=
  let x1 := if x < 0 then x + 2 * Real.pi else x
  if x1 > 2 * Real.pi then x1 - 2 * Real.pi else x1

/-- The canonical-frame azimuth of a query direction: the local azimuth
shifted so the sun sits at `φ = π/2`, wrapped into `[0, 2π]`
(sunsky.cpp:425-428). -/
def canonical_azimuth (sun_phi : ℝ) (v : ℝ × ℝ × ℝ) : ℝ :=
  wrap_azimuth (atan2 v.2.1 v.1 - (sun_phi - Real.pi / 2))

/-- `sky_pdf` (sunsky.cpp:417-464).  `v` is the local query direction,
`sun_phi` the sun's local azimuth (`sun_angles.x()`). -/
def sky_pdf (gcdf : ℝ → ℝ → ℝ → ℝ) (tables : ℕ → ℝ) (sun_phi : ℝ)
    (v : ℝ × ℝ × ℝ) : ℝ :=
  let sin_theta := Real.sqrt (max (1 - v.2.2 ^ 2) 0)
  let theta := Real.arccos v.2.2
  if (0 ≤ v.2.2 ∧ sin_theta ≠ 0) ∧ (0 ≤ theta ∧ theta ≤ Real.pi / 2) then
    tgmm_mixture_pdf gcdf tables (canonical_azimuth sun_phi v, theta) /
      max sin_theta eps
  else 0

/-- **C6**: `sky_pdf` returns 0 for a direction below the horizon
(`cos θ < 0`), for degenerate azimuth (`sin θ = 0`), and for a
canonical-frame elevation outside `[0, π/2]`; otherwise it returns the
mixture sum divided by the (clamped) `sin θ` Jacobian. -/
theorem sky_pdf_spec (gcdf : ℝ → ℝ → ℝ → ℝ) (tables : ℕ → ℝ) (sun_phi : ℝ)
    (u w : ℝ × ℝ × ℝ) :
    (u.2.2 < 0 → sky_pdf gcdf tables sun_phi u = 0) ∧
      (Real.sqrt (max (1 - u.2.2 ^ 2) 0) = 0 →
        sky_pdf gcdf tables sun_phi u = 0) ∧
      (¬(0 ≤ Real.arccos u.2.2 ∧ Real.arccos u.2.2 ≤ Real.pi / 2) →
        sky_pdf gcdf tables sun_phi u = 0) ∧
      (0 ≤ w.2.2 → Real.sqrt (max (1 - w.2.2 ^ 2) 0) ≠ 0 →
        sky_pdf gcdf tables sun_phi w =
          tgmm_mixture_pdf gcdf tables
              (canonical_azimuth sun_phi w, Real.arccos w.2.2) /
            max (Real.sqrt (max (1 - w.2.2 ^ 2) 0)) eps) := by
  refine ⟨?_, ?_, ?_, ?_⟩
  · intro h
    rw [sky_pdf, if_neg]
    rintro ⟨⟨h0, -⟩, -⟩
    exact absurd h (not_lt.mpr h0)
  · intro h
    rw [sky_pdf, if_neg]
    rintro ⟨⟨-, hs⟩, -⟩
    exact hs h
  · intro h
    rw [sky_pdf, if_neg]
    rintro ⟨-, hb⟩
    exact h hb
  · intro hz hs
    rw [sky_pdf, if_pos]
    exact ⟨⟨hz, hs⟩, Real.arccos_nonneg _, Real.arccos_le_pi_div_two.mpr hz⟩

/-- Witness for C6: the horizontal direction `(1, 0, 0)` passes all the
rejection tests and evaluates to the mixture sum over `sin θ`. -/
theorem sky_pdf_spec_witness :
    ((0 : ℝ) ≤ ((1 : ℝ), (0 : ℝ), (0 : ℝ)).2.2 ∧
        Real.sqrt (max (1 - ((1 : ℝ), (0 : ℝ), (0 : ℝ)).2.2 ^ 2) 0) ≠ 0) ∧
      sky_pdf (fun _ _ _ => 0) (fun _ => 0) 0 (1, 0, 0) =
        tgmm_mixture_pdf (fun _ _ _ => 0) (fun _ => 0)
            (canonical_azimuth 0 (1, 0, 0),
              Real.arccos ((1 : ℝ), (0 : ℝ), (0 : ℝ)).2.2) /
          max (Real.sqrt (max (1 - ((1 : ℝ), (0 : ℝ), (0 : ℝ)).2.2 ^ 2) 0)) eps :=
  ⟨⟨le_refl 0, by norm_num [Real.sqrt_one]⟩,
   (sky_pdf_spec (fun _ _ _ => 0) (fun _ => 0) 0 (1, 0, 0) (1, 0, 0)).2.2.2
     (le_refl 0) (by norm_num [Real.sqrt_one])⟩

/-! ## Emitter state, constructor and change propagation
(sunsky.cpp:213-351)

The emitter's mutable members are gathered in `SunskyState`.  External
collaborators consumed by the constructor and by `parameters_changed` — the
astronomical sun-position function, the world transform, the bilinear
dataset stage and the quadrature-based balance estimator — are bundled as
abstract functions in `Externals`. -/

/-- `DateTimeRecord` with the plugin's default property values. -/
structure DateTimeRecord where
  year : ℤ := 2010
  month : ℕ := 7
  day : ℕ := 10
  hour : ℝ := 15
  minute : ℝ := 0
  second : ℝ := 0

/-- `LocationRecord` with the plugin's default property values (Tokyo). -/
structure LocationRecord where
  latitude : ℝ := 35.6894
  longitude : ℝ := 139.6917
  timezone : ℝ := 9

/-- `sph_to_dir(θ, φ)` (external utility): unit vector from spherical
angles. -/
def sph_to_dir (theta phi : ℝ) : ℝ × ℝ × ℝ :=
  (Real.sin theta * Real.cos phi, Real.sin theta * Real.sin phi, Real.cos theta)

/-- `dir_to_sph(v)` (external utility): `(θ, φ)` spherical angles of a unit
vector. -/
def dir_to_sph (v : ℝ × ℝ × ℝ) : ℝ × ℝ :=
  (Real.arccos v.2.2, atan2 v.2.1 v.1)

/-- `dr::normalize`. -/
def normalize (v : ℝ × ℝ × ℝ) : ℝ × ℝ × ℝ :=
  let n := Real.sqrt (v.1 ^ 2 + v.2.1 ^ 2 + v.2.2 ^ 2)
  (v.1 / n, v.2.1 / n, v.2.2 / n)

/-- Entrywise Bezier interpolation of a bilinearly interpolated per-control-
point dataset (`bezier_interp(temp, eta)` on a tensor, sunsky.cpp:258-262). -/
def bezier_table (tbl : ℕ → ℕ → ℝ) (eta : ℝ) : ℕ → ℝ :=
  fun j => bezier_interp (fun i => tbl i j) eta

/-- The mutable members of `SunskyEmitter`. -/
structure SunskyState where
  active_record : Bool
  turbidity : ℝ
  albedo : ℝ
  time : DateTimeRecord
  location : LocationRecord
  sun_dir : ℝ × ℝ × ℝ
  sun_angles : ℝ × ℝ
  sky_params : ℕ → ℝ
  sky_radiance : ℕ → ℝ
  tgmm_tables : ℕ → ℝ
  gaussian_weights : ℕ → ℝ
  sampling_w : ℝ
  spectral_distr : Wavelength → Wavelength × Wavelength

/-- External collaborators (spec §6), abstracted as functions. -/
structure Externals where
  sun_coordinates : DateTimeRecord → LocationRecord → ℝ × ℝ
  to_world : ℝ × ℝ × ℝ → ℝ × ℝ × ℝ
  to_world_inv : ℝ × ℝ × ℝ → ℝ × ℝ × ℝ
  sky_params_bilinear : ℝ → ℝ → ℕ → ℕ → ℝ
  sky_rad_bilinear : ℝ → ℝ → ℕ → ℕ → ℝ
  tgmm_dataset : ℕ → ℝ
  estimate : SunskyState → ℝ × (Wavelength → Wavelength × Wavelength)

/-- `changed_atmosphere` (sunsky.cpp:305). -/
def changed_atmosphere (keys : List String) : Bool :=
  keys.isEmpty || keys.contains "albedo" || keys.contains "turbidity"

/-- The time/location key test inside `changed_time_record`
(sunsky.cpp:306-311). -/
def time_record_keys (keys : List String) : Bool :=
  keys.contains "timezone" || keys.contains "year" ||
  keys.contains "day" || keys.contains "month" || keys.contains "hour" ||
  keys.contains "minute" || keys.contains "second" || keys.contains "latitude" ||
  keys.contains "longitude"

/-- `changed_time_record` (sunsky.cpp:306-311): note that an empty key set
triggers it regardless of `m_active_record`. -/
def changed_time_record (active_record : Bool) (keys : List String) : Bool :=
  keys.isEmpty || (active_record && time_record_keys keys)

/-- `changed_sun_dir` (sunsky.cpp:312). -/
def changed_sun_dir (active_record : Bool) (keys : List String) : Bool :=
  (!active_record && keys.contains "sun_direction") ||
    changed_time_record active_record keys

/-- The sun-angle update stage of `parameters_changed` (sunsky.cpp:315-323). -/
def update_sun_angles (ext : Externals) (s : SunskyState) (keys : List String) :
    SunskyState :=
  if changed_time_record s.active_record keys then
    let tp := ext.sun_coordinates s.time s.location
    { s with sun_dir := ext.to_world (sph_to_dir tp.1 tp.2),
             sun_angles := (tp.2, tp.1) }
  else if changed_sun_dir s.active_record keys then
    let a := dir_to_sph (ext.to_world_inv s.sun_dir)
    { s with sun_angles := (a.2, a.1) }
  else s

/-- The sky-coefficient update stage of `parameters_changed`
(sunsky.cpp:327-334). -/
def update_sky_coefs (ext : Externals) (s : SunskyState) (keys : List String)
    (eta : ℝ) : SunskyState :=
  if changed_sun_dir s.active_record keys || changed_atmosphere keys then
    { s with
        sky_params := bezier_table (ext.sky_params_bilinear s.albedo s.turbidity) eta,
        sky_radiance := bezier_table (ext.sky_rad_bilinear s.albedo s.turbidity) eta }
  else s

/-- The TGMM update stage of `parameters_changed` (sunsky.cpp:336-338): no
dependence on albedo. -/
def update_tgmm (ext : Externals) (s : SunskyState) (keys : List String)
    (eta : ℝ) : SunskyState :=
  if changed_sun_dir s.active_record keys || keys.contains "turbidity" then
    { s with
        tgmm_tables := (build_tgmm_distribution ext.tgmm_dataset s.turbidity eta).1,
        gaussian_weights := (build_tgmm_distribution ext.tgmm_dataset s.turbidity eta).2 }
  else s

/-- `parameters_changed` (sunsky.cpp:298-351). -/
def parameters_changed (ext : Externals) (s : SunskyState) (keys : List String) :
    SunskyState :=
  let s1 := update_sun_angles ext s keys
  let eta := Real.pi / 2 - s1.sun_angles.2
  let s2 := update_sky_coefs ext s1 keys eta
  let s3 := update_tgmm ext s2 keys eta
  let ew := ext.estimate s3
  { s3 with sampling_w := ew.1, spectral_distr := ew.2 }

/-- The plugin properties consumed by the constructor (sunsky.cpp:213-244).
`none` means "property not specified". -/
structure Properties where
  sun_direction : Option (ℝ × ℝ × ℝ) := none
  latitude : Option ℝ := none
  longitude : Option ℝ := none
  timezone : Option ℝ := none
  year : Option ℤ := none
  month : Option ℕ := none
  day : Option ℕ := none
  hour : Option ℝ := none
  minute : Option ℝ := none
  second : Option ℝ := none
  turbidity : ℝ := 3
  albedo : ℝ := 0.3

/-- The `has_property` disjunction guarding the configuration error
(sunsky.cpp:215-219). -/
def has_time_location (p : Properties) : Bool :=
  p.latitude.isSome || p.longitude.isSome || p.timezone.isSome ||
  p.year.isSome || p.month.isSome || p.day.isSome ||
  p.hour.isSome || p.minute.isSome || p.second.isSome

/-- The `SunskyEmitter` constructor (sunsky.cpp:213-279).  `Log(Error, ...)`
throws, so a configuration conflict yields `Except.error` before any
coefficient or mixture computation; otherwise the derived state is built. -/
def construct (ext : Externals) (p : Properties) : Except String SunskyState :=
  if p.sun_direction.isSome && has_time_location p then
    Except.error ("Both the sun_direction and parameters for time/location " ++
      "were provided, both information cannot be given at the same time!")
  else
    let mode : Bool × (ℝ × ℝ × ℝ) × DateTimeRecord × LocationRecord :=
      match p.sun_direction with
      | some d => (false, normalize d, {}, {})
      | none =>
          let location : LocationRecord :=
            { latitude := p.latitude.getD 35.6894,
              longitude := p.longitude.getD 139.6917,
              timezone := p.timezone.getD 9 }
          let time : DateTimeRecord :=
            { year := p.year.getD 2010, month := p.month.getD 7,
              day := p.day.getD 10, hour := p.hour.getD 15,
              minute := p.minute.getD 0, second := p.second.getD 0 }
          let tp := ext.sun_coordinates time location
          (true, ext.to_world (sph_to_dir tp.1 tp.2), time, location)
    let a := dir_to_sph (ext.to_world_inv mode.2.1)
    let sun_angles := (a.2, a.1)
    let sun_eta := Real.pi / 2 - sun_angles.2
    let s0 : SunskyState :=
      { active_record := mode.1, turbidity := p.turbidity, albedo := p.albedo,
        time := mode.2.2.1, location := mode.2.2.2, sun_dir := mode.2.1,
        sun_angles := sun_angles,
        sky_params := bezier_table (ext.sky_params_bilinear p.albedo p.turbidity) sun_eta,
        sky_radiance := bezier_table (ext.sky_rad_bilinear p.albedo p.turbidity) sun_eta,
        tgmm_tables := (build_tgmm_distribution ext.tgmm_dataset p.turbidity sun_eta).1,
        gaussian_weights := (build_tgmm_distribution ext.tgmm_dataset p.turbidity sun_eta).2,
        sampling_w := 0, spectral_distr := fun w => (w, w) }
    let ew := ext.estimate s0
    Except.ok { s0 with sampling_w := ew.1, spectral_distr := ew.2 }

/-- **C7**: constructing with both a `sun_direction` property and any
location/time property fails with the fatal configuration error: the error
branch is taken before any coefficient or mixture table is computed. -/
theorem construct_conflict_error (ext : Externals) (p : Properties)
    (hdir : p.sun_direction.isSome = true) (hloc : has_time_location p = true) :
    construct ext p =
      Except.error ("Both the sun_direction and parameters for time/location " ++
        "were provided, both information cannot be given at the same time!") := by
  rw [construct, if_pos]
  rw [hdir, hloc]
  rfl

/-- Trivial external collaborators, for concrete witnesses. -/
def trivialExt : Externals :=
  { sun_coordinates := fun _ _ => (0, 0),
    to_world := id,
    to_world_inv := id,
    sky_params_bilinear := fun _ _ _ _ => 0,
    sky_rad_bilinear := fun _ _ _ _ => 0,
    tgmm_dataset := fun _ => 0,
    estimate := fun _ => (0, fun w => (w, w)) }

/-- A property set specifying both a sun direction and a latitude. -/
def conflictProps : Properties :=
  { sun_direction := some (0, 0, 1), latitude := some 35 }

/-- Witness for C7: `conflictProps` is rejected. -/
theorem construct_conflict_error_witness :
    conflictProps.sun_direction.isSome = true ∧
      has_time_location conflictProps = true ∧
      construct trivialExt conflictProps =
        Except.error ("Both the sun_direction and parameters for time/location " ++
          "were provided, both information cannot be given at the same time!") :=
  ⟨rfl, rfl, construct_conflict_error trivialExt conflictProps rfl rfl⟩

/-! ### Field-preservation facts for the update stages -/

theorem contains_eq_false_of_all_albedo {keys : List String} {w : String}
    (h : ∀ k ∈ keys, k = "albedo") (hw : w ≠ "albedo") :
    keys.contains w = false := by
  cases hc : keys.contains w with
  | false => rfl
  | true => exact absurd (h w (List.mem_of_elem_eq_true hc)) hw

@[simp] theorem update_sun_angles_active (ext : Externals) (s : SunskyState)
    (keys : List String) :
    (update_sun_angles ext s keys).active_record = s.active_record := by
  unfold update_sun_angles; (repeat' split) <;> rfl

@[simp] theorem update_sun_angles_turbidity (ext : Externals) (s : SunskyState)
    (keys : List String) :
    (update_sun_angles ext s keys).turbidity = s.turbidity := by
  unfold update_sun_angles; (repeat' split) <;> rfl

@[simp] theorem update_sun_angles_albedo (ext : Externals) (s : SunskyState)
    (keys : List String) :
    (update_sun_angles ext s keys).albedo = s.albedo := by
  unfold update_sun_angles; (repeat' split) <;> rfl

@[simp] theorem update_sun_angles_tgmm (ext : Externals) (s : SunskyState)
    (keys : List String) :
    (update_sun_angles ext s keys).tgmm_tables = s.tgmm_tables := by
  unfold update_sun_angles; (repeat' split) <;> rfl

@[simp] theorem update_sun_angles_gaussian (ext : Externals) (s : SunskyState)
    (keys : List String) :
    (update_sun_angles ext s keys).gaussian_weights = s.gaussian_weights := by
  unfold update_sun_angles; (repeat' split) <;> rfl

@[simp] theorem update_sky_coefs_active (ext : Externals) (s : SunskyState)
    (keys : List String) (eta : ℝ) :
    (update_sky_coefs ext s keys eta).active_record = s.active_record := by
  unfold update_sky_coefs; split <;> rfl

@[simp] theorem update_sky_coefs_turbidity (ext : Externals) (s : SunskyState)
    (keys : List String) (eta : ℝ) :
    (update_sky_coefs ext s keys eta).turbidity = s.turbidity := by
  unfold update_sky_coefs; split <;> rfl

@[simp] theorem update_sky_coefs_sun_dir (ext : Externals) (s : SunskyState)
    (keys : List String) (eta : ℝ) :
    (update_sky_coefs ext s keys eta).sun_dir = s.sun_dir := by
  unfold update_sky_coefs; split <;> rfl

@[simp] theorem update_sky_coefs_sun_angles (ext : Externals) (s : SunskyState)
    (keys : List String) (eta : ℝ) :
    (update_sky_coefs ext s keys eta).sun_angles = s.sun_angles := by
  unfold update_sky_coefs; split <;> rfl

@[simp] theorem update_sky_coefs_tgmm (ext : Externals) (s : SunskyState)
    (keys : List String) (eta : ℝ) :
    (update_sky_coefs ext s keys eta).tgmm_tables = s.tgmm_tables := by
  unfold update_sky_coefs; split <;> rfl

@[simp] theorem update_sky_coefs_gaussian (ext : Externals) (s : SunskyState)
    (keys : List String) (eta : ℝ) :
    (update_sky_coefs ext s keys eta).gaussian_weights = s.gaussian_weights := by
  unfold update_sky_coefs; split <;> rfl

@[simp] theorem update_tgmm_sun_dir (ext : Externals) (s : SunskyState)
    (keys : List String) (eta : ℝ) :
    (update_tgmm ext s keys eta).sun_dir = s.sun_dir := by
  unfold update_tgmm; split <;> rfl

@[simp] theorem update_tgmm_sun_angles (ext : Externals) (s : SunskyState)
    (keys : List String) (eta : ℝ) :
    (update_tgmm ext s keys eta).sun_angles = s.sun_angles := by
  unfold update_tgmm; split <;> rfl

@[simp] theorem update_tgmm_sky_params (ext : Externals) (s : SunskyState)
    (keys : List String) (eta : ℝ) :
    (update_tgmm ext s keys eta).sky_params = s.sky_params := by
  unfold update_tgmm; split <;> rfl

@[simp] theorem update_tgmm_sky_radiance (ext : Externals) (s : SunskyState)
    (keys : List String) (eta : ℝ) :
    (update_tgmm ext s keys eta).sky_radiance = s.sky_radiance := by
  unfold update_tgmm; split <;> rfl

theorem parameters_changed_sun_angles (ext : Externals) (s : SunskyState)
    (keys : List String) :
    (parameters_changed ext s keys).sun_angles =
      (update_sun_angles ext s keys).sun_angles := by
  simp [parameters_changed]

theorem parameters_changed_sun_dir_eq (ext : Externals) (s : SunskyState)
    (keys : List String) :
    (parameters_changed ext s keys).sun_dir =
      (update_sun_angles ext s keys).sun_dir := by
  simp [parameters_changed]

/-- **C3**: a `parameters_changed` call whose key set contains only
`"albedo"` leaves the combined TGMM mixture table and the component
selection weights unchanged, while a call whose key set contains
`"turbidity"` recomputes both the interpolated coefficients and the mixture
table. -/
theorem parameters_changed_albedo_turbidity (ext : Externals) (s : SunskyState)
    (keys1 keys2 : List String) :
    (keys1 ≠ [] → (∀ k ∈ keys1, k = "albedo") →
      (parameters_changed ext s keys1).tgmm_tables = s.tgmm_tables ∧
        (parameters_changed ext s keys1).gaussian_weights = s.gaussian_weights) ∧
      ("turbidity" ∈ keys2 →
        (parameters_changed ext s keys2).tgmm_tables =
            (build_tgmm_distribution ext.tgmm_dataset s.turbidity
              (Real.pi / 2 - (parameters_changed ext s keys2).sun_angles.2)).1 ∧
          (parameters_changed ext s keys2).gaussian_weights =
            (build_tgmm_distribution ext.tgmm_dataset s.turbidity
              (Real.pi / 2 - (parameters_changed ext s keys2).sun_angles.2)).2 ∧
          (parameters_changed ext s keys2).sky_params =
            bezier_table (ext.sky_params_bilinear s.albedo s.turbidity)
              (Real.pi / 2 - (parameters_changed ext s keys2).sun_angles.2) ∧
          (parameters_changed ext s keys2).sky_radiance =
            bezier_table (ext.sky_rad_bilinear s.albedo s.turbidity)
              (Real.pi / 2 - (parameters_changed ext s keys2).sun_angles.2)) := by
  constructor
  · intro hne hall
    have hempty : keys1.isEmpty = false := by
      cases keys1 with
      | nil => exact absurd rfl hne
      | cons a t => rfl
    have hturb : keys1.contains "turbidity" = false :=
      contains_eq_false_of_all_albedo hall (by decide)
    have htrk : time_record_keys keys1 = false := by
      rw [time_record_keys,
        contains_eq_false_of_all_albedo hall (by decide : "timezone" ≠ "albedo"),
        contains_eq_false_of_all_albedo hall (by decide : "year" ≠ "albedo"),
        contains_eq_false_of_all_albedo hall (by decide : "day" ≠ "albedo"),
        contains_eq_false_of_all_albedo hall (by decide : "month" ≠ "albedo"),
        contains_eq_false_of_all_albedo hall (by decide : "hour" ≠ "albedo"),
        contains_eq_false_of_all_albedo hall (by decide : "minute" ≠ "albedo"),
        contains_eq_false_of_all_albedo hall (by decide : "second" ≠ "albedo"),
        contains_eq_false_of_all_albedo hall (by decide : "latitude" ≠ "albedo"),
        contains_eq_false_of_all_albedo hall (by decide : "longitude" ≠ "albedo")]
      rfl
    have hctr : ∀ b : Bool, changed_time_record b keys1 = false := by
      intro b
      rw [changed_time_record, hempty, htrk]
      simp
    have hcsd : ∀ b : Bool, changed_sun_dir b keys1 = false := by
      intro b
      rw [changed_sun_dir,
        contains_eq_false_of_all_albedo hall (by decide : "sun_direction" ≠ "albedo"),
        hctr]
      simp
    have hm1 : "turbidity" ∉ keys1 := fun hmem =>
      absurd (hall _ hmem) (by decide)
    constructor <;>
      simp [parameters_changed, update_tgmm, hcsd, hturb, hm1]
  · intro hmem
    have hturb : keys2.contains "turbidity" = true :=
      List.elem_eq_true_of_mem hmem
    have hatm : changed_atmosphere keys2 = true := by
      rw [changed_atmosphere, hturb]
      simp
    refine ⟨?_, ?_, ?_, ?_⟩ <;>
      simp [parameters_changed_sun_angles, parameters_changed, update_tgmm,
        update_sky_coefs, hturb, hatm, hmem]

/-- A state in direct sun-direction mode with a user-supplied direction. -/
def directState : SunskyState :=
  { active_record := false, turbidity := 3, albedo := 0.3, time := {},
    location := {}, sun_dir := (1, 0, 0), sun_angles := (0, 0),
    sky_params := fun _ => 0, sky_radiance := fun _ => 0,
    tgmm_tables := fun _ => 0, gaussian_weights := fun _ => 0,
    sampling_w := 0, spectral_distr := fun w => (w, w) }

/-- Witness for C3 with the key sets `["albedo"]` and `["turbidity"]`. -/
theorem parameters_changed_albedo_turbidity_witness :
    ((["albedo"] : List String) ≠ [] ∧ (∀ k ∈ (["albedo"] : List String), k = "albedo") ∧
        "turbidity" ∈ (["turbidity"] : List String)) ∧
      ((parameters_changed trivialExt directState ["albedo"]).tgmm_tables =
          directState.tgmm_tables ∧
        (parameters_changed trivialExt directState ["albedo"]).gaussian_weights =
          directState.gaussian_weights) ∧
      (parameters_changed trivialExt directState ["turbidity"]).tgmm_tables =
        (build_tgmm_distribution trivialExt.tgmm_dataset directState.turbidity
          (Real.pi / 2 -
            (parameters_changed trivialExt directState ["turbidity"]).sun_angles.2)).1 := by
  have h := parameters_changed_albedo_turbidity trivialExt directState
    ["albedo"] ["turbidity"]
  exact ⟨⟨by simp, by simp, by simp⟩,
    h.1 (by simp) (by simp), (h.2 (by simp)).1⟩

/-- **C9**: a `parameters_changed` call with an empty key set recomputes the
sun direction and angles from the stored time/location record even when the
emitter is in direct sun-direction mode (`m_active_record = false`),
overwriting the user-supplied `sun_direction` instead of preserving it. -/
theorem parameters_changed_empty_overwrites_sun_dir (ext : Externals)
    (s : SunskyState) (h : s.active_record = false) :
    (parameters_changed ext s []).sun_dir =
        ext.to_world (sph_to_dir (ext.sun_coordinates s.time s.location).1
          (ext.sun_coordinates s.time s.location).2) ∧
      (parameters_changed ext s []).sun_angles =
        ((ext.sun_coordinates s.time s.location).2,
          (ext.sun_coordinates s.time s.location).1) ∧
      (ext.to_world (sph_to_dir (ext.sun_coordinates s.time s.location).1
          (ext.sun_coordinates s.time s.location).2) ≠ s.sun_dir →
        (parameters_changed ext s []).sun_dir ≠ s.sun_dir) := by
  have hctr : changed_time_record s.active_record [] = true := rfl
  have h1 : (parameters_changed ext s []).sun_dir =
      ext.to_world (sph_to_dir (ext.sun_coordinates s.time s.location).1
        (ext.sun_coordinates s.time s.location).2) := by
    rw [parameters_changed_sun_dir_eq, update_sun_angles, if_pos hctr]
  have h2 : (parameters_changed ext s []).sun_angles =
      ((ext.sun_coordinates s.time s.location).2,
        (ext.sun_coordinates s.time s.location).1) := by
    rw [parameters_changed_sun_angles, update_sun_angles, if_pos hctr]
  exact ⟨h1, h2, fun hne => h1 ▸ hne⟩

/-- Witness for C9: the record-derived direction `(0,0,1)` overwrites the
user-supplied `(1,0,0)`. -/
theorem parameters_changed_empty_overwrites_sun_dir_witness :
    directState.active_record = false ∧
      trivialExt.to_world (sph_to_dir
          (trivialExt.sun_coordinates directState.time directState.location).1
          (trivialExt.sun_coordinates directState.time directState.location).2) ≠
        directState.sun_dir ∧
      (parameters_changed trivialExt directState []).sun_dir ≠
        directState.sun_dir := by
  have hne : trivialExt.to_world (sph_to_dir
      (trivialExt.sun_coordinates directState.time directState.location).1
      (trivialExt.sun_coordinates directState.time directState.location).2) ≠
      directState.sun_dir := by
    norm_num [trivialExt, sph_to_dir, directState, Prod.ext_iff]
  exact ⟨rfl, hne,
    (parameters_changed_empty_overwrites_sun_dir trivialExt directState rfl).2.2 hne⟩

end Sunsky
